import Mathlib

/-!
Verification of the HAL orb renderer (`src/HAL.tsx`, with a second shader
variant in `unnamed/part_000`).

The configuration / color-resolution / interpolation layer is embedded over `ℚ`
(the TypeScript numbers appearing there are exact decimal literals and the
operations are field operations), so that all statements are decidable.
The fragment shader is embedded over `ℝ` in a later section.
-/

namespace HAL

-- ===========================================================================
-- Types (src/HAL.tsx lines 7-40)
-- ===========================================================================

inductive Preset where
  | idle
  | listening
  | thinking
  | speaking
  | asleep
deriving DecidableEq

/-- An RGB triple; channels in [0,1] in stored state. -/
abbrev RGB := ℚ × ℚ × ℚ

/-- `Required<HALAnimationParams>`: the seven scalar animation fields. -/
structure AnimationParams where
  pulseSpeed : ℚ
  pulseAmount : ℚ
  cloudSpeed : ℚ
  cloudIntensity : ℚ
  highlightDrift : ℚ
  highlightSize : ℚ
  highlightPulse : ℚ
deriving DecidableEq

/-- `HALAnimationParams`: a partial override record (absent field = `none`). -/
structure AnimationOverrides where
  pulseSpeed : Option ℚ
  pulseAmount : Option ℚ
  cloudSpeed : Option ℚ
  cloudIntensity : Option ℚ
  highlightDrift : Option ℚ
  highlightSize : Option ℚ
  highlightPulse : Option ℚ
deriving DecidableEq

def noAnimationOverrides : AnimationOverrides :=
  ⟨none, none, none, none, none, none, none⟩

/-- A fully-resolved color scheme (all three colors present). -/
structure ColorScheme where
  base : RGB
  mid : RGB
  highlight : RGB
deriving DecidableEq

/-- `HALColorScheme`: the user-facing override where each color is optional. -/
structure ColorSchemeOverride where
  base : Option RGB
  mid : Option RGB
  highlight : Option RGB
deriving DecidableEq

-- ===========================================================================
-- Preset configurations (src/HAL.tsx lines 73-135)
-- ===========================================================================

def PRESET_ANIMATIONS : Preset → AnimationParams
  | .idle =>
    { pulseSpeed := 0.8
      pulseAmount := 0.02
      cloudSpeed := 0.12
      cloudIntensity := 0.35
      highlightDrift := 0.25
      highlightSize := 0.35
      highlightPulse := 0.1 }
  | .listening =>
    { pulseSpeed := 2.5
      pulseAmount := 0.05
      cloudSpeed := 0.35
      cloudIntensity := 0.5
      highlightDrift := 0.0
      highlightSize := 0.5
      highlightPulse := 0.25 }
  | .thinking =>
    { pulseSpeed := 2.5
      pulseAmount := 0.05
      cloudSpeed := 0.4
      cloudIntensity := 0.55
      highlightDrift := 1.2
      highlightSize := 0.65
      highlightPulse := 0.12 }
  | .speaking =>
    { pulseSpeed := 6.0
      pulseAmount := 0.08
      cloudSpeed := 0.85
      cloudIntensity := 0.7
      highlightDrift := 3.2
      highlightSize := 1.2
      highlightPulse := 0.2 }
  | .asleep =>
    { pulseSpeed := 0.2
      pulseAmount := 0.01
      cloudSpeed := 0.04
      cloudIntensity := 0.15
      highlightDrift := 0.08
      highlightSize := 0.12
      highlightPulse := 0.02 }

def PRESET_COLORS_blue : ColorScheme :=
  { base := (0.08, 0.18, 0.55)
    mid := (0.15, 0.35, 0.75)
    highlight := (0.5, 0.75, 1.0) }

def PRESET_COLORS_red : ColorScheme :=
  { base := (0.6, 0.08, 0.15)
    mid := (0.85, 0.15, 0.25)
    highlight := (1.0, 0.5, 0.6) }

/-- Default color for the listening state (`LISTENING_COLOR`). -/
def LISTENING_COLOR : ColorScheme := PRESET_COLORS_red

-- ===========================================================================
-- Utility functions (src/HAL.tsx lines 141-188)
-- ===========================================================================

/-- Value of one hex digit, mirroring the character class `[a-f\d]` with the
regex `i` flag (so also `A`-`F`); `none` for any other character. -/
def hexDigitVal (c : Char) : Option ℕ :=
  if '0' ≤ c ∧ c ≤ '9' then some (c.toNat - 48)
  else if 'a' ≤ c ∧ c ≤ 'f' then some (c.toNat - 87)
  else if 'A' ≤ c ∧ c ≤ 'F' then some (c.toNat - 55)
  else none

/-- `parseInt(d₁d₂, 16)` on a two-hex-digit group. -/
def hexByteVal (c1 c2 : Char) : Option ℕ :=
  match hexDigitVal c1, hexDigitVal c2 with
  | some h1, some h2 => some (16 * h1 + h2)
  | _, _ => none

/-- The regex `/^#?([a-f\d]{2})([a-f\d]{2})([a-f\d]{2})$/i.exec(hex)`:
an optional leading `#` followed by exactly six hex digits, anchored at both
ends; returns the three captured byte values on success. -/
def hexMatch (s : String) : Option (ℕ × ℕ × ℕ) :=
  let cs := s.data
  let body := match cs with
    | '#' :: rest => rest
    | _ => cs
  match body with
  | [c1, c2, c3, c4, c5, c6] =>
    match hexByteVal c1 c2, hexByteVal c3 c4, hexByteVal c5 c6 with
    | some r, some g, some b => some (r, g, b)
    | _, _, _ => none
  | _ => none

/-- `hexToRgb` (src/HAL.tsx lines 141-149). -/
def hexToRgb (hex : String) : RGB :=
  match hexMatch hex with
  | none => (0.15, 0.35, 0.75)
  | some (r, g, b) => ((r : ℚ) / 255, (g : ℚ) / 255, (b : ℚ) / 255)

/-- `generateColorScheme` (src/HAL.tsx lines 151-176). -/
def generateColorScheme (baseRgb : RGB) : ColorScheme :=
  let r := baseRgb.1
  let g := baseRgb.2.1
  let b := baseRgb.2.2
  let luminance := 0.299 * r + 0.587 * g + 0.114 * b
  let mx := max r (max g b)
  let mn := min r (min g b)
  let saturation := if mx = 0 then 0 else (mx - mn) / mx
  if saturation < 0.1 then
    { base := (luminance * 0.4, luminance * 0.4, luminance * 0.4)
      mid := (luminance * 0.8, luminance * 0.8, luminance * 0.8)
      highlight := (0.95, 0.95, 0.95) }
  else
    { base := (r * 0.5, g * 0.5, b * 0.5)
      mid := (min 1 (r * 1.2), min 1 (g * 1.2), min 1 (b * 1.2))
      highlight := (min 1 (r * 0.5 + 0.5), min 1 (g * 0.5 + 0.5), min 1 (b * 0.5 + 0.5)) }

/-- `lerp` (src/HAL.tsx lines 178-180). -/
def lerp (a b t : ℚ) : ℚ := a + (b - a) * t

/-- `lerpColor` (src/HAL.tsx lines 182-188). -/
def lerpColor (a b : RGB) (t : ℚ) : RGB :=
  (lerp a.1 b.1 t, lerp a.2.1 b.2.1 t, lerp a.2.2 b.2.2 t)

-- ===========================================================================
-- Target-state resolution (src/HAL.tsx lines 535-580)
-- ===========================================================================

/-- The uniform/parameter vector held in `currentParamsRef` and produced by
the `targetState` memo: three colors plus the seven animation scalars. -/
structure CurrentParams where
  baseColor : RGB
  midColor : RGB
  highlight : RGB
  pulseSpeed : ℚ
  pulseAmount : ℚ
  cloudSpeed : ℚ
  cloudIntensity : ℚ
  highlightDrift : ℚ
  highlightSize : ℚ
  highlightPulse : ℚ
deriving DecidableEq

/-- `{ ...presetAnim, ...animation }`: override wins field by field. -/
def mergeAnimation (pa : AnimationParams) (ov : AnimationOverrides) : AnimationParams :=
  { pulseSpeed := ov.pulseSpeed.getD pa.pulseSpeed
    pulseAmount := ov.pulseAmount.getD pa.pulseAmount
    cloudSpeed := ov.cloudSpeed.getD pa.cloudSpeed
    cloudIntensity := ov.cloudIntensity.getD pa.cloudIntensity
    highlightDrift := ov.highlightDrift.getD pa.highlightDrift
    highlightSize := ov.highlightSize.getD pa.highlightSize
    highlightPulse := ov.highlightPulse.getD pa.highlightPulse }

/-- JavaScript truthiness of an optional string: `undefined` and `""` are
falsy, every other string is truthy. -/
def truthyString : Option String → Option String
  | some s => if s = "" then none else some s
  | none => none

/-- The color-precedence chain of the `targetState` memo
(src/HAL.tsx lines 541-563), before the asleep dimming step. -/
def resolveColors (preset : Preset) (color : Option String)
    (presetColors : Preset → Option String)
    (colorScheme : Option ColorSchemeOverride) : ColorScheme :=
  match colorScheme with
  | some cs =>
    { base := cs.base.getD PRESET_COLORS_blue.base
      mid := cs.mid.getD PRESET_COLORS_blue.mid
      highlight := cs.highlight.getD PRESET_COLORS_blue.highlight }
  | none =>
    if preset = .listening then
      match truthyString (presetColors .listening) with
      | some hex => generateColorScheme (hexToRgb hex)
      | none => LISTENING_COLOR
    else
      match truthyString (presetColors preset) with
      | some hex => generateColorScheme (hexToRgb hex)
      | none =>
        match truthyString color with
        | some hex => generateColorScheme (hexToRgb hex)
        | none => PRESET_COLORS_blue

/-- `colors.base.map(c => c * 0.5)` on one color. -/
def scaleRGB (c : RGB) (s : ℚ) : RGB := (c.1 * s, c.2.1 * s, c.2.2 * s)

/-- The full `targetState` memo (src/HAL.tsx lines 535-580): animation merge,
color precedence chain, asleep dimming special case. -/
def targetState (preset : Preset) (animation : AnimationOverrides)
    (color : Option String) (presetColors : Preset → Option String)
    (colorScheme : Option ColorSchemeOverride) : CurrentParams :=
  let anim := mergeAnimation (PRESET_ANIMATIONS preset) animation
  let colors := resolveColors preset color presetColors colorScheme
  let colors :=
    if preset = .asleep ∧ colorScheme.isNone then
      { base := scaleRGB colors.base 0.5
        mid := scaleRGB colors.mid 0.5
        highlight := scaleRGB colors.highlight 0.5 }
    else colors
  { baseColor := colors.base
    midColor := colors.mid
    highlight := colors.highlight
    pulseSpeed := anim.pulseSpeed
    pulseAmount := anim.pulseAmount
    cloudSpeed := anim.cloudSpeed
    cloudIntensity := anim.cloudIntensity
    highlightDrift := anim.highlightDrift
    highlightSize := anim.highlightSize
    highlightPulse := anim.highlightPulse }

-- ===========================================================================
-- One animation tick (src/HAL.tsx lines 671-689)
-- ===========================================================================

/-- `const t = 0.015 * transitionSpeed` (src/HAL.tsx line 674). -/
def tickStep (transitionSpeed : ℚ) : ℚ := 0.015 * transitionSpeed

/-- One tick of the render loop's parameter update
(src/HAL.tsx lines 676-688): exponential smoothing for the visual fields,
instantaneous snap for the three speed fields. -/
def advance (current target : CurrentParams) (transitionSpeed : ℚ) : CurrentParams :=
  let t := tickStep transitionSpeed
  { baseColor := lerpColor current.baseColor target.baseColor t
    midColor := lerpColor current.midColor target.midColor t
    highlight := lerpColor current.highlight target.highlight t
    highlightSize := lerp current.highlightSize target.highlightSize t
    highlightPulse := lerp current.highlightPulse target.highlightPulse t
    cloudIntensity := lerp current.cloudIntensity target.cloudIntensity t
    pulseAmount := lerp current.pulseAmount target.pulseAmount t
    pulseSpeed := target.pulseSpeed
    cloudSpeed := target.cloudSpeed
    highlightDrift := target.highlightDrift }

-- ===========================================================================
-- Concrete parameter vectors used in counterexamples and witnesses
-- ===========================================================================

def paramsZero : CurrentParams :=
  ⟨(0, 0, 0), (0, 0, 0), (0, 0, 0), 0, 0, 0, 0, 0, 0, 0⟩

def paramsOne : CurrentParams :=
  ⟨(1, 1, 1), (1, 1, 1), (1, 1, 1), 1, 1, 1, 1, 1, 1, 1⟩

-- ===========================================================================
-- Fragment shader embedding (src/HAL.tsx lines 203-493, unnamed/part_000
-- lines 203-511). GLSL floats are embedded as real numbers; GLSL vec2/vec3/
-- vec4 as component records with componentwise operations.
-- ===========================================================================

noncomputable section ShaderEmbedding

structure V2 where
  x : ℝ
  y : ℝ

structure V3 where
  x : ℝ
  y : ℝ
  z : ℝ

structure V4 where
  x : ℝ
  y : ℝ
  z : ℝ
  w : ℝ

namespace V2

def sub (a b : V2) : V2 := ⟨a.x - b.x, a.y - b.y⟩

instance : Sub V2 := ⟨V2.sub⟩

/-- Componentwise `abs` on a vec2. -/
def vabs (a : V2) : V2 := ⟨|a.x|, |a.y|⟩

/-- GLSL `length(v) = sqrt(v.x*v.x + v.y*v.y)`. -/
def length (a : V2) : ℝ := Real.sqrt (a.x * a.x + a.y * a.y)

end V2

namespace V3

def add (a b : V3) : V3 := ⟨a.x + b.x, a.y + b.y, a.z + b.z⟩

def sub (a b : V3) : V3 := ⟨a.x - b.x, a.y - b.y, a.z - b.z⟩

def mul (a b : V3) : V3 := ⟨a.x * b.x, a.y * b.y, a.z * b.z⟩

instance : Add V3 := ⟨V3.add⟩

instance : Sub V3 := ⟨V3.sub⟩

instance : Mul V3 := ⟨V3.mul⟩

/-- vec * scalar. -/
def scale (a : V3) (s : ℝ) : V3 := ⟨a.x * s, a.y * s, a.z * s⟩

/-- vec + scalar (GLSL broadcasts the scalar). -/
def adds (a : V3) (s : ℝ) : V3 := ⟨a.x + s, a.y + s, a.z + s⟩

def dot (a b : V3) : ℝ := a.x * b.x + a.y * b.y + a.z * b.z

def vmin (a b : V3) : V3 := ⟨min a.x b.x, min a.y b.y, min a.z b.z⟩

def vmax (a b : V3) : V3 := ⟨max a.x b.x, max a.y b.y, max a.z b.z⟩

def vfloor (a : V3) : V3 := ⟨(⌊a.x⌋ : ℝ), (⌊a.y⌋ : ℝ), (⌊a.z⌋ : ℝ)⟩

def length (a : V3) : ℝ := Real.sqrt (V3.dot a a)

/-- GLSL `normalize(v) = v / length(v)`. -/
def normalize (a : V3) : V3 := ⟨a.x / V3.length a, a.y / V3.length a, a.z / V3.length a⟩

end V3

namespace V4

def add (a b : V4) : V4 := ⟨a.x + b.x, a.y + b.y, a.z + b.z, a.w + b.w⟩

def sub (a b : V4) : V4 := ⟨a.x - b.x, a.y - b.y, a.z - b.z, a.w - b.w⟩

def mul (a b : V4) : V4 := ⟨a.x * b.x, a.y * b.y, a.z * b.z, a.w * b.w⟩

def neg (a : V4) : V4 := ⟨-a.x, -a.y, -a.z, -a.w⟩

instance : Add V4 := ⟨V4.add⟩

instance : Sub V4 := ⟨V4.sub⟩

instance : Mul V4 := ⟨V4.mul⟩

instance : Neg V4 := ⟨V4.neg⟩

def scale (a : V4) (s : ℝ) : V4 := ⟨a.x * s, a.y * s, a.z * s, a.w * s⟩

def adds (a : V4) (s : ℝ) : V4 := ⟨a.x + s, a.y + s, a.z + s, a.w + s⟩

def dot (a b : V4) : ℝ := a.x * b.x + a.y * b.y + a.z * b.z + a.w * b.w

def vmax (a b : V4) : V4 := ⟨max a.x b.x, max a.y b.y, max a.z b.z, max a.w b.w⟩

def vabs (a : V4) : V4 := ⟨|a.x|, |a.y|, |a.z|, |a.w|⟩

def vfloor (a : V4) : V4 := ⟨(⌊a.x⌋ : ℝ), (⌊a.y⌋ : ℝ), (⌊a.z⌋ : ℝ), (⌊a.w⌋ : ℝ)⟩

end V4

-- GLSL scalar builtins.

/-- GLSL `step(edge, x)`: 0.0 if `x < edge`, else 1.0. -/
def glStep (edge x : ℝ) : ℝ := if x < edge then 0 else 1

/-- Componentwise `step` on vec3 (edge vector, value vector). -/
def glStep3 (edge x : V3) : V3 := ⟨glStep edge.x x.x, glStep edge.y x.y, glStep edge.z x.z⟩

/-- Componentwise `step` on vec4. -/
def glStep4 (edge x : V4) : V4 :=
  ⟨glStep edge.x x.x, glStep edge.y x.y, glStep edge.z x.z, glStep edge.w x.w⟩

/-- GLSL `clamp(x, lo, hi)`. -/
def glClamp (x lo hi : ℝ) : ℝ := min (max x lo) hi

/-- GLSL `smoothstep(e0, e1, x)`. -/
def smoothstep (e0 e1 x : ℝ) : ℝ :=
  let t := glClamp ((x - e0) / (e1 - e0)) 0 1
  t * t * (3 - 2 * t)

/-- GLSL `mix(a, b, t) = a*(1-t) + b*t`. -/
def glMix (a b t : ℝ) : ℝ := a * (1 - t) + b * t

/-- Componentwise `mix` of two vec3 by a scalar weight. -/
def mix3 (a b : V3) (t : ℝ) : V3 := ⟨glMix a.x b.x t, glMix a.y b.y t, glMix a.z b.z t⟩

/-- GLSL two-argument `atan(y, x)` (atan2), embedded via the complex
argument. -/
def glAtan2 (y x : ℝ) : ℝ := Complex.arg (Complex.ofReal x + Complex.ofReal y * Complex.I)

-- Simplex noise (FRAGMENT_SHADER lines 222-286, identical in both variants).

def mod289v3 (x : V3) : V3 := x - (V3.vfloor (x.scale (1.0 / 289.0))).scale 289.0

def mod289v4 (x : V4) : V4 := x - (V4.vfloor (x.scale (1.0 / 289.0))).scale 289.0

def permute (x : V4) : V4 := mod289v4 (((x.scale 34.0).adds 1.0) * x)

def taylorInvSqrt (r : V4) : V4 :=
  (V4.mk 1.79284291400159 1.79284291400159 1.79284291400159 1.79284291400159) -
    r.scale 0.85373472095314

def snoise (v : V3) : ℝ :=
  -- const vec2 C = vec2(1/6, 1/3); const vec4 D = vec4(0.0, 0.5, 1.0, 2.0);
  let Cx : ℝ := 1.0 / 6.0
  let Cy : ℝ := 1.0 / 3.0
  let i : V3 := V3.vfloor (v.adds (V3.dot v ⟨Cy, Cy, Cy⟩))
  let x0 : V3 := (v - i).adds (V3.dot i ⟨Cx, Cx, Cx⟩)
  let g : V3 := glStep3 ⟨x0.y, x0.z, x0.x⟩ x0
  let l : V3 := (V3.mk 1.0 1.0 1.0) - g
  let i1 : V3 := V3.vmin g ⟨l.z, l.x, l.y⟩
  let i2 : V3 := V3.vmax g ⟨l.z, l.x, l.y⟩
  let x1 : V3 := (x0 - i1).adds Cx
  let x2 : V3 := (x0 - i2).adds Cy
  let x3 : V3 := x0 - ⟨0.5, 0.5, 0.5⟩
  let i := mod289v3 i
  let p : V4 := permute (permute (permute
        ((V4.mk 0.0 i1.z i2.z 1.0).adds i.z)
      + ((V4.mk 0.0 i1.y i2.y 1.0).adds i.y))
      + ((V4.mk 0.0 i1.x i2.x 1.0).adds i.x))
  let nr : ℝ := 0.142857142857
  -- ns = n_ * D.wyz - D.xzx
  let ns : V3 := (V3.mk 2.0 0.5 1.0).scale nr - ⟨0.0, 1.0, 0.0⟩
  let j : V4 := p - (V4.vfloor (p.scale (ns.z * ns.z))).scale 49.0
  let xp : V4 := V4.vfloor (j.scale ns.z)
  let yp : V4 := V4.vfloor (j - xp.scale 7.0)
  let x : V4 := (xp.scale ns.x).adds ns.y
  let y : V4 := (yp.scale ns.x).adds ns.y
  let h : V4 := (V4.mk 1.0 1.0 1.0 1.0) - V4.vabs x - V4.vabs y
  let b0 : V4 := ⟨x.x, x.y, y.x, y.y⟩
  let b1 : V4 := ⟨x.z, x.w, y.z, y.w⟩
  let s0 : V4 := (V4.vfloor b0).scale 2.0 |>.adds 1.0
  let s1 : V4 := (V4.vfloor b1).scale 2.0 |>.adds 1.0
  let sh : V4 := -(glStep4 h ⟨0.0, 0.0, 0.0, 0.0⟩)
  -- a0 = b0.xzyw + s0.xzyw * sh.xxyy ; a1 = b1.xzyw + s1.xzyw * sh.zzww
  let a0 : V4 := ⟨b0.x + s0.x * sh.x, b0.z + s0.z * sh.x, b0.y + s0.y * sh.y, b0.w + s0.w * sh.y⟩
  let a1 : V4 := ⟨b1.x + s1.x * sh.z, b1.z + s1.z * sh.z, b1.y + s1.y * sh.w, b1.w + s1.w * sh.w⟩
  let p0 : V3 := ⟨a0.x, a0.y, h.x⟩
  let p1 : V3 := ⟨a0.z, a0.w, h.y⟩
  let p2 : V3 := ⟨a1.x, a1.y, h.z⟩
  let p3 : V3 := ⟨a1.z, a1.w, h.w⟩
  let norm : V4 := taylorInvSqrt ⟨V3.dot p0 p0, V3.dot p1 p1, V3.dot p2 p2, V3.dot p3 p3⟩
  let p0 := p0.scale norm.x
  let p1 := p1.scale norm.y
  let p2 := p2.scale norm.z
  let p3 := p3.scale norm.w
  let m : V4 := V4.vmax
      ((V4.mk 0.6 0.6 0.6 0.6) - ⟨V3.dot x0 x0, V3.dot x1 x1, V3.dot x2 x2, V3.dot x3 x3⟩)
      ⟨0.0, 0.0, 0.0, 0.0⟩
  let m := m * m
  42.0 * V4.dot (m * m) ⟨V3.dot p0 x0, V3.dot p1 x1, V3.dot p2 x2, V3.dot p3 x3⟩

/-- The 6-octave fbm loop body, unrolled by a fuel counter. -/
def fbmAux : ℕ → V3 → ℝ → ℝ → ℝ → ℝ
  | 0, _, value, _, _ => value
  | Nat.succ n, p, value, amplitude, frequency =>
      fbmAux n p (value + amplitude * snoise (p.scale frequency)) (amplitude * 0.5)
        (frequency * 2.0)

/-- `fbm` (FRAGMENT_SHADER lines 288-298): 6 octaves starting at amplitude
0.5 and frequency 1.0. -/
def fbm (p : V3) : ℝ := fbmAux 6 p 0.0 0.5 1.0

-- ===========================================================================
-- main() of the fragment shader. `uv = v_uv * 2 - 1` is taken as the input
-- coordinate. The code up to the reflection branch is byte-identical in
-- src/HAL.tsx and unnamed/part_000.
-- ===========================================================================

/-- The shader uniforms fed from `currentParamsRef` (u_baseColor .. u_highlightPulse). -/
structure Uniforms where
  baseColor : V3
  midColor : V3
  highlight : V3
  pulseSpeed : ℝ
  pulseAmount : ℝ
  cloudSpeed : ℝ
  cloudIntensity : ℝ
  highlightDrift : ℝ
  highlightSize : ℝ
  highlightPulse : ℝ

/-- `float sphereRadius = 0.72` (line 305). -/
def sphereRadius : ℝ := 0.72

/-- `float edgeSoftness = 0.008` (line 306). -/
def edgeSoftness : ℝ := 0.008

/-- The antialiased circular mask
`sphere = 1.0 - smoothstep(sphereRadius - edgeSoftness, sphereRadius, dist)`. -/
def sphereOf (uv : V2) : ℝ :=
  1.0 - smoothstep (sphereRadius - edgeSoftness) sphereRadius (V2.length uv)

/-- `z = sqrt(max(0.0, 1.0 - (uv.x*uv.x + uv.y*uv.y) / (r*r)))` (line 315). -/
def zOf (uv : V2) : ℝ :=
  Real.sqrt (max 0.0 (1.0 - (uv.x * uv.x + uv.y * uv.y) / (sphereRadius * sphereRadius)))

/-- `normal = normalize(vec3(uv.x/r, uv.y/r, z))` (line 316). -/
def normalOf (uv : V2) : V3 :=
  V3.normalize ⟨uv.x / sphereRadius, uv.y / sphereRadius, zOf uv⟩

/-- `fresnel = pow(1.0 - max(0.0, dot(normal, viewDir)), 4.0)` with
`viewDir = vec3(0,0,1)` (line 370). -/
def fresnelOf (uv : V2) : ℝ :=
  (1.0 - max 0.0 (V3.dot (normalOf uv) ⟨0.0, 0.0, 1.0⟩)) ^ (4.0 : ℝ)

/-- The color computed by the fragment shader main() from the sphere normal
up to (and including) the bottom-shadow multiplier — everything before the
reflection branch (src/HAL.tsx lines 314-413, identical in both variants). -/
def preColor (uv : V2) (u : Uniforms) (time : ℝ) : V3 :=
  let dist := V2.length uv
  let z := zOf uv
  let normal := normalOf uv
  let theta := glAtan2 normal.x normal.z
  let phi := Real.arccos (glClamp normal.y (-1.0) 1.0)
  let cloudTime := time * u.cloudSpeed
  let cloudPos1 : V3 := ⟨theta * 1.8 + cloudTime, phi * 1.8, cloudTime * 0.4⟩
  let cloudPos2 : V3 :=
    ⟨theta * 1.2 - cloudTime * 0.6, phi * 1.2 + cloudTime * 0.25, cloudTime * 0.25⟩
  let cloudPos3 : V3 :=
    ⟨theta * 2.5 + cloudTime * 0.35, phi * 2.5 - cloudTime * 0.15, cloudTime * 0.6⟩
  let clouds1 := fbm cloudPos1 * 0.5 + 0.5
  let clouds2 := fbm cloudPos2 * 0.5 + 0.5
  let clouds3 := fbm (cloudPos3.scale 0.6) * 0.5 + 0.5
  let cloudPattern := clouds1 * 0.5 + clouds2 * 0.35 + clouds3 * 0.15
  let cloudPattern := smoothstep 0.25 0.75 cloudPattern
  let driftTime := time * u.highlightDrift
  let driftAmount := min u.highlightDrift 1.0
  let driftOffset : V2 :=
    ⟨Real.sin (driftTime * 0.8) * 0.3 + Real.sin (driftTime * 1.4) * 0.15 +
        Real.sin (driftTime * 2.1) * 0.08,
      Real.cos (driftTime * 0.6) * 0.25 + Real.cos (driftTime * 1.2) * 0.1 +
        Real.cos (driftTime * 1.9) * 0.06⟩
  let basePosition : V2 := ⟨0.0, 0.15⟩
  let driftPosition : V2 := ⟨-0.2 + driftOffset.x, 0.25 + driftOffset.y⟩
  let highlightCenter : V2 :=
    ⟨glMix basePosition.x driftPosition.x driftAmount,
      glMix basePosition.y driftPosition.y driftAmount⟩
  let highlightPulseAmount :=
    1.0 + Real.sin (time * u.pulseSpeed * 1.8) * u.highlightPulse +
      Real.sin (time * u.pulseSpeed * 0.7) * u.highlightPulse * 0.5
  let currentHighlightSize := u.highlightSize * highlightPulseAmount
  let lightDir := V3.normalize ⟨highlightCenter.x, highlightCenter.y, 0.85⟩
  let diffuse := max 0.0 (V3.dot normal lightDir)
  let diffuse := diffuse ^ (0.85 : ℝ)
  let viewDir : V3 := ⟨0.0, 0.0, 1.0⟩
  let halfDir := V3.normalize (lightDir + viewDir)
  let specVSoft := (max 0.0 (V3.dot normal halfDir)) ^ (4.0 : ℝ)
  let specSoft := (max 0.0 (V3.dot normal halfDir)) ^ (12.0 : ℝ)
  let specMed := (max 0.0 (V3.dot normal halfDir)) ^ (40.0 : ℝ)
  let specSharp := (max 0.0 (V3.dot normal halfDir)) ^ (150.0 : ℝ)
  let specular := specVSoft * currentHighlightSize * 0.4 +
    specSoft * currentHighlightSize * 0.5 +
    specMed * currentHighlightSize * 0.35 +
    specSharp * 0.6
  let fresnel := (1.0 - max 0.0 (V3.dot normal viewDir)) ^ (4.0 : ℝ)
  let pulse := 1.0 + Real.sin (time * u.pulseSpeed) * u.pulseAmount
  let depthGradient := z ^ (0.6 : ℝ)
  let baseGradient := mix3 u.baseColor u.midColor depthGradient
  let cloudedColor := mix3 (u.baseColor.scale 0.5) (u.midColor.scale 1.3)
    (cloudPattern * u.cloudIntensity + (1.0 - u.cloudIntensity) * 0.5)
  let cloudedColor := mix3 baseGradient cloudedColor u.cloudIntensity
  let color := cloudedColor.scale (0.35 + diffuse * 0.65)
  let sss := (max 0.0 (1.0 - dist / sphereRadius)) ^ (2.0 : ℝ) * 0.3
  let color := color + u.midColor.scale (sss * (0.6 + cloudPattern * 0.4))
  let highlightColor := mix3 u.highlight ⟨1.0, 1.0, 1.0⟩ 0.4
  let color := color + highlightColor.scale (specular * 1.5)
  let bloom := specVSoft * currentHighlightSize
  let color := color + u.highlight.scale (bloom * 0.7)
  let color := color + (V3.mk 1.0 1.0 1.0).scale (specSoft * currentHighlightSize * 0.3)
  let color := color + u.highlight.scale (fresnel * 0.2)
  let innerGlow := (max 0.0 (1.0 - dist / sphereRadius)) ^ (2.5 : ℝ)
  let color := color + u.midColor.scale (innerGlow * 0.12)
  let color := color.scale pulse
  let ao := smoothstep sphereRadius (sphereRadius * 0.4) dist
  let color := color.scale (ao * 0.4 + 0.6)
  let bottomShadow := smoothstep (-0.7) 0.4 uv.y
  let color := color.scale (bottomShadow * 0.3 + 0.7)
  color

/-- The accumulated `ref` of the HAL.tsx reflection branch (lines 417-480),
before `ref = min(ref, 1.0) * u_reflections`. -/
def refSumA (uv : V2) : ℝ :=
  let topArcRadius : ℝ := 0.52
  let topArcCenter : V2 := ⟨0.0, -0.08⟩
  let topArcDist := V2.length (uv - topArcCenter)
  let topArc := glStep (topArcRadius - 0.025) topArcDist *
    glStep topArcDist (topArcRadius + 0.025)
  let topArc := topArc * glStep 0.28 uv.y
  let topArc := topArc * (glStep (-0.38) uv.x * glStep uv.x 0.38)
  let ref := topArc
  let leftArcRadius : ℝ := 0.38
  let leftArcCenter : V2 := ⟨0.15, 0.0⟩
  let leftArcDist := V2.length (uv - leftArcCenter)
  let leftArc := glStep (leftArcRadius - 0.018) leftArcDist *
    glStep leftArcDist (leftArcRadius + 0.018)
  let leftArc := leftArc * (glStep (-0.42) uv.x * glStep uv.x (-0.18))
  let leftArc := leftArc * (glStep 0.0 uv.y * glStep uv.y 0.32)
  let ref := ref + leftArc * 0.9
  let rightArcCenter : V2 := ⟨-0.15, 0.0⟩
  let rightArcDist := V2.length (uv - rightArcCenter)
  let rightArc := glStep (leftArcRadius - 0.018) rightArcDist *
    glStep rightArcDist (leftArcRadius + 0.018)
  let rightArc := rightArc * (glStep 0.18 uv.x * glStep uv.x 0.42)
  let rightArc := rightArc * (glStep 0.0 uv.y * glStep uv.y 0.32)
  let ref := ref + rightArc * 0.9
  let d1 := V2.vabs (uv - ⟨-0.22, 0.42⟩)
  let dash1 := glStep d1.x 0.06 * glStep d1.y 0.018
  let ref := ref + dash1 * 0.85
  let d2 := V2.vabs (uv - ⟨0.22, 0.42⟩)
  let dash2 := glStep d2.x 0.06 * glStep d2.y 0.018
  let ref := ref + dash2 * 0.85
  let d3 := V2.vabs (uv - ⟨-0.38, 0.18⟩)
  let dash3 := glStep d3.x 0.035 * glStep d3.y 0.012
  let ref := ref + dash3 * 0.7
  let d4 := V2.vabs (uv - ⟨0.38, 0.18⟩)
  let dash4 := glStep d4.x 0.035 * glStep d4.y 0.012
  let ref := ref + dash4 * 0.7
  let d5 := V2.vabs (uv - ⟨-0.28, -0.05⟩)
  let dash5 := glStep d5.x 0.025 * glStep d5.y 0.01
  let ref := ref + dash5 * 0.6
  let d6 := V2.vabs (uv - ⟨0.28, -0.05⟩)
  let dash6 := glStep d6.x 0.025 * glStep d6.y 0.01
  let ref := ref + dash6 * 0.6
  let d7 := V2.vabs (uv - ⟨0.0, -0.35⟩)
  let dash7 := glStep d7.x 0.04 * glStep d7.y 0.015
  let ref := ref + dash7 * 0.5
  ref

/-- One channel of the Reinhard-style tone mapping
`finalColor = color / (color + 0.45) * 1.35`. -/
def toneChannel (c : ℝ) : ℝ := c / (c + 0.45) * 1.35

def toneMap (c : V3) : V3 := ⟨toneChannel c.x, toneChannel c.y, toneChannel c.z⟩

/-- The full fragment shader of src/HAL.tsx: RGBA output with the circular
mask as alpha, early-out to transparent black outside the mask, and the
hard step-shape reflection overlay when `u_reflections > 0`. -/
def shadeA (uv : V2) (u : Uniforms) (time reflections : ℝ) : V4 :=
  let sphere := sphereOf uv
  if sphere < 0.001 then ⟨0.0, 0.0, 0.0, 0.0⟩
  else
    let color := preColor uv u time
    let color :=
      if 0.0 < reflections then
        mix3 color ⟨1.0, 1.0, 1.0⟩ (min (refSumA uv) 1.0 * reflections)
      else color
    let finalColor := toneMap color
    ⟨finalColor.x, finalColor.y, finalColor.z, sphere⟩

-- ===========================================================================
-- The unnamed/part_000 shader variant. Its pre-reflection pipeline is
-- byte-identical to src/HAL.tsx (embedded again below as `preColorB`); it
-- adds SDF helpers and a soft reflection overlay that also reads
-- `u_resolution`.
-- ===========================================================================

/-- `sdRoundRect` (part_000 lines 300-303). -/
def sdRoundRect (p b : V2) (r : ℝ) : ℝ :=
  let q : V2 := ⟨|p.x| - b.x, |p.y| - b.y⟩
  V2.length ⟨max q.x 0.0, max q.y 0.0⟩ + min (max q.x q.y) 0.0 - r

/-- `roundRectMask` (part_000 lines 305-312); `res` is `u_resolution`. -/
def roundRectMask (res p halfSize : V2) (radius softness : ℝ) : ℝ :=
  let d := sdRoundRect p halfSize radius
  let aa := 2.0 / min res.x res.y
  let m := 1.0 - smoothstep 0.0 (aa + softness) d
  let depth := min halfSize.x halfSize.y * 0.85
  let taper := 1.0 - smoothstep (-depth) 0.0 d
  m * taper

/-- `ringMask` (part_000 lines 314-320). -/
def ringMask (res p center : V2) (radius halfWidth softness : ℝ) : ℝ :=
  let d := |V2.length (p - center) - radius|
  let aa := 2.0 / min res.x res.y
  let m := 1.0 - smoothstep halfWidth (halfWidth + aa + softness) d
  let taper := 1.0 - smoothstep 0.0 halfWidth d
  m * taper

/-- The pre-reflection pipeline of the part_000 shader (lines 336-435),
byte-identical to the src/HAL.tsx one. -/
def preColorB (uv : V2) (u : Uniforms) (time : ℝ) : V3 :=
  let dist := V2.length uv
  let z := zOf uv
  let normal := normalOf uv
  let theta := glAtan2 normal.x normal.z
  let phi := Real.arccos (glClamp normal.y (-1.0) 1.0)
  let cloudTime := time * u.cloudSpeed
  let cloudPos1 : V3 := ⟨theta * 1.8 + cloudTime, phi * 1.8, cloudTime * 0.4⟩
  let cloudPos2 : V3 :=
    ⟨theta * 1.2 - cloudTime * 0.6, phi * 1.2 + cloudTime * 0.25, cloudTime * 0.25⟩
  let cloudPos3 : V3 :=
    ⟨theta * 2.5 + cloudTime * 0.35, phi * 2.5 - cloudTime * 0.15, cloudTime * 0.6⟩
  let clouds1 := fbm cloudPos1 * 0.5 + 0.5
  let clouds2 := fbm cloudPos2 * 0.5 + 0.5
  let clouds3 := fbm (cloudPos3.scale 0.6) * 0.5 + 0.5
  let cloudPattern := clouds1 * 0.5 + clouds2 * 0.35 + clouds3 * 0.15
  let cloudPattern := smoothstep 0.25 0.75 cloudPattern
  let driftTime := time * u.highlightDrift
  let driftAmount := min u.highlightDrift 1.0
  let driftOffset : V2 :=
    ⟨Real.sin (driftTime * 0.8) * 0.3 + Real.sin (driftTime * 1.4) * 0.15 +
        Real.sin (driftTime * 2.1) * 0.08,
      Real.cos (driftTime * 0.6) * 0.25 + Real.cos (driftTime * 1.2) * 0.1 +
        Real.cos (driftTime * 1.9) * 0.06⟩
  let basePosition : V2 := ⟨0.0, 0.15⟩
  let driftPosition : V2 := ⟨-0.2 + driftOffset.x, 0.25 + driftOffset.y⟩
  let highlightCenter : V2 :=
    ⟨glMix basePosition.x driftPosition.x driftAmount,
      glMix basePosition.y driftPosition.y driftAmount⟩
  let highlightPulseAmount :=
    1.0 + Real.sin (time * u.pulseSpeed * 1.8) * u.highlightPulse +
      Real.sin (time * u.pulseSpeed * 0.7) * u.highlightPulse * 0.5
  let currentHighlightSize := u.highlightSize * highlightPulseAmount
  let lightDir := V3.normalize ⟨highlightCenter.x, highlightCenter.y, 0.85⟩
  let diffuse := max 0.0 (V3.dot normal lightDir)
  let diffuse := diffuse ^ (0.85 : ℝ)
  let viewDir : V3 := ⟨0.0, 0.0, 1.0⟩
  let halfDir := V3.normalize (lightDir + viewDir)
  let specVSoft := (max 0.0 (V3.dot normal halfDir)) ^ (4.0 : ℝ)
  let specSoft := (max 0.0 (V3.dot normal halfDir)) ^ (12.0 : ℝ)
  let specMed := (max 0.0 (V3.dot normal halfDir)) ^ (40.0 : ℝ)
  let specSharp := (max 0.0 (V3.dot normal halfDir)) ^ (150.0 : ℝ)
  let specular := specVSoft * currentHighlightSize * 0.4 +
    specSoft * currentHighlightSize * 0.5 +
    specMed * currentHighlightSize * 0.35 +
    specSharp * 0.6
  let fresnel := (1.0 - max 0.0 (V3.dot normal viewDir)) ^ (4.0 : ℝ)
  let pulse := 1.0 + Real.sin (time * u.pulseSpeed) * u.pulseAmount
  let depthGradient := z ^ (0.6 : ℝ)
  let baseGradient := mix3 u.baseColor u.midColor depthGradient
  let cloudedColor := mix3 (u.baseColor.scale 0.5) (u.midColor.scale 1.3)
    (cloudPattern * u.cloudIntensity + (1.0 - u.cloudIntensity) * 0.5)
  let cloudedColor := mix3 baseGradient cloudedColor u.cloudIntensity
  let color := cloudedColor.scale (0.35 + diffuse * 0.65)
  let sss := (max 0.0 (1.0 - dist / sphereRadius)) ^ (2.0 : ℝ) * 0.3
  let color := color + u.midColor.scale (sss * (0.6 + cloudPattern * 0.4))
  let highlightColor := mix3 u.highlight ⟨1.0, 1.0, 1.0⟩ 0.4
  let color := color + highlightColor.scale (specular * 1.5)
  let bloom := specVSoft * currentHighlightSize
  let color := color + u.highlight.scale (bloom * 0.7)
  let color := color + (V3.mk 1.0 1.0 1.0).scale (specSoft * currentHighlightSize * 0.3)
  let color := color + u.highlight.scale (fresnel * 0.2)
  let innerGlow := (max 0.0 (1.0 - dist / sphereRadius)) ^ (2.5 : ℝ)
  let color := color + u.midColor.scale (innerGlow * 0.12)
  let color := color.scale pulse
  let ao := smoothstep sphereRadius (sphereRadius * 0.4) dist
  let color := color.scale (ao * 0.4 + 0.6)
  let bottomShadow := smoothstep (-0.7) 0.4 uv.y
  let color := color.scale (bottomShadow * 0.3 + 0.7)
  color

/-- The part_000 reflection branch body (lines 438-504), applied to the
pre-reflection color. -/
def reflOverlayB (uv res : V2) (reflections : ℝ) (color : V3) : V3 :=
  let normal := normalOf uv
  let z := zOf uv
  let fresnel := fresnelOf uv
  let rp : V2 := ⟨uv.x + normal.x * (0.065 * (1.0 - z)), uv.y + normal.y * (0.065 * (1.0 - z))⟩
  let rp : V2 := ⟨rp.x, rp.y * 1.03⟩
  let soft : ℝ := 0.014
  let refCore : ℝ := 0.0
  let refGlow : ℝ := 0.0
  let top := ringMask res rp ⟨0.0, 0.06⟩ 0.66 0.020 (soft * 0.55)
  let topY := smoothstep 0.30 0.48 rp.y
  let top := top * topY
  let top := top * (1.0 - smoothstep 0.52 0.76 |rp.x|)
  let topInner := ringMask res rp ⟨0.0, 0.08⟩ 0.62 0.012 (soft * 0.45)
  let topInner := topInner * topY
  let topInner := topInner * (1.0 - smoothstep 0.48 0.72 |rp.x|)
  let topHalo := ringMask res rp ⟨0.0, 0.06⟩ 0.66 0.054 (soft * 2.0) * topY
  let topHalo := topHalo * (1.0 - smoothstep 0.40 0.78 |rp.x|)
  let refCore := refCore + (top * 1.10 + topInner * 0.85)
  let refGlow := refGlow + topHalo * 0.55
  let sideL := ringMask res rp ⟨0.20, 0.02⟩ 0.48 0.010 (soft * 0.55)
  let sideL := sideL * (smoothstep (-0.02) 0.16 rp.y * (1.0 - smoothstep 0.24 0.40 rp.y))
  let sideL := sideL *
    (smoothstep (-0.56) (-0.38) rp.x * (1.0 - smoothstep (-0.18) (-0.04) rp.x))
  let refCore := refCore + sideL * 0.55
  let refGlow := refGlow + ringMask res rp ⟨0.20, 0.02⟩ 0.48 0.030 (soft * 1.6) * sideL * 0.30
  let sideR := ringMask res rp ⟨-0.20, 0.02⟩ 0.48 0.010 (soft * 0.55)
  let sideR := sideR * (smoothstep (-0.02) 0.16 rp.y * (1.0 - smoothstep 0.24 0.40 rp.y))
  let sideR := sideR * (smoothstep 0.04 0.18 rp.x * (1.0 - smoothstep 0.38 0.56 rp.x))
  let refCore := refCore + sideR * 0.55
  let refGlow := refGlow + ringMask res rp ⟨-0.20, 0.02⟩ 0.48 0.030 (soft * 1.6) * sideR * 0.30
  let dTopL := roundRectMask res (rp - ⟨-0.25, 0.62⟩) ⟨0.115, 0.018⟩ 0.012 (soft * 0.75)
  let dTopR := roundRectMask res (rp - ⟨0.25, 0.62⟩) ⟨0.115, 0.018⟩ 0.012 (soft * 0.75)
  let dTopC := roundRectMask res (rp - ⟨0.0, 0.53⟩) ⟨0.080, 0.015⟩ 0.011 (soft * 0.75)
  let dMidL := roundRectMask res (rp - ⟨-0.40, 0.22⟩) ⟨0.040, 0.014⟩ 0.010 (soft * 0.8)
  let dMidR := roundRectMask res (rp - ⟨0.40, 0.22⟩) ⟨0.040, 0.014⟩ 0.010 (soft * 0.8)
  let dLowL := roundRectMask res (rp - ⟨-0.30, -0.06⟩) ⟨0.030, 0.012⟩ 0.010 (soft * 0.75)
  let dLowR := roundRectMask res (rp - ⟨0.30, -0.06⟩) ⟨0.030, 0.012⟩ 0.010 (soft * 0.75)
  let dBot := roundRectMask res (rp - ⟨0.0, -0.36⟩) ⟨0.050, 0.016⟩ 0.012 (soft * 0.75)
  let refCore := refCore + (dTopL * 0.88 + dTopR * 0.88 + dTopC * 0.55)
  let refCore := refCore + (dMidL * 0.62 + dMidR * 0.62)
  let refCore := refCore + (dLowL * 0.48 + dLowR * 0.48)
  let refCore := refCore + dBot * 0.34
  let refGlow := refGlow +
    roundRectMask res (rp - ⟨-0.25, 0.62⟩) ⟨0.140, 0.030⟩ 0.016 (soft * 2.0) * 0.20
  let refGlow := refGlow +
    roundRectMask res (rp - ⟨0.25, 0.62⟩) ⟨0.140, 0.030⟩ 0.016 (soft * 2.0) * 0.20
  let refGlow := refGlow +
    roundRectMask res (rp - ⟨0.0, 0.53⟩) ⟨0.110, 0.028⟩ 0.016 (soft * 2.0) * 0.12
  let edgeBoost := glMix 0.35 1.0 (glClamp (fresnel * 2.4) 0.0 1.0)
  let refMask := glClamp refCore 0.0 1.0
  let glowMask := glClamp refGlow 0.0 1.0
  let strength := reflections * edgeBoost
  let refColor : V3 := ⟨1.0, 1.0, 1.0⟩
  let color := color + refColor.scale ((refMask * 0.70 + glowMask * 0.26) * strength)
  let color := mix3 color ⟨1.0, 1.0, 1.0⟩ ((refMask * 0.12 + glowMask * 0.07) * strength)
  color

/-- The full fragment shader of unnamed/part_000; `resolution` is the
`u_resolution` uniform it reads inside the reflection helpers. -/
def shadeB (uv : V2) (u : Uniforms) (time : ℝ) (resolution : V2) (reflections : ℝ) : V4 :=
  let sphere := sphereOf uv
  if sphere < 0.001 then ⟨0.0, 0.0, 0.0, 0.0⟩
  else
    let color := preColorB uv u time
    let color :=
      if 0.0 < reflections then reflOverlayB uv resolution reflections color
      else color
    let finalColor := toneMap color
    ⟨finalColor.x, finalColor.y, finalColor.z, sphere⟩

-- Concrete uniform vectors used in shader counterexamples and witnesses.

/-- The default blue / idle state as shader uniforms. -/
def uniformsBlue : Uniforms :=
  ⟨⟨0.08, 0.18, 0.55⟩, ⟨0.15, 0.35, 0.75⟩, ⟨0.5, 0.75, 1.0⟩,
    0.8, 0.02, 0.12, 0.35, 0.25, 0.35, 0.1⟩

/-- A bright state (white base/mid, pulseSpeed 1, pulseAmount 100, all other
animation fields 0) under which the pre-reflection color far exceeds 1 at
time pi/2. -/
def uniformsBright : Uniforms :=
  ⟨⟨1, 1, 1⟩, ⟨1, 1, 1⟩, ⟨0, 0, 0⟩, 1, 100, 0, 0, 0, 0, 0⟩

/-- A dark state (all colors zero, pulseSpeed 1, pulseAmount -1) whose pulse
factor vanishes at time pi/2, so the pre-reflection color is exactly zero. -/
def uniformsDark : Uniforms :=
  ⟨⟨0, 0, 0⟩, ⟨0, 0, 0⟩, ⟨0, 0, 0⟩, 1, -1, 0, 0, 0, 0, 0⟩

/-- The two pre-reflection pipelines are the same function. -/
theorem preColorB_eq_preColor : ∀ (uv : V2) (u : Uniforms) (time : ℝ),
    preColorB uv u time = preColor uv u time :=
  fun _ _ _ => rfl

end ShaderEmbedding

-- ===========================================================================
-- Claims about the configuration / interpolation layer
-- ===========================================================================

/-- C2 counterexample: the claim says the interpolation step of one tick is
`clamp(0.015 * m, 0, 1)`; in the code the step is `0.015 * m` with no clamp,
so at transition speed `m = 100` a tick moves a smoothed field from 0 toward
target 1 by a step of 1.5, overshooting to 1.5 instead of the clamped
prediction 1. -/
theorem advance_step_clamp_cex :
    (advance paramsZero paramsOne 100).highlightSize = 1.5 ∧
    ¬ (advance paramsZero paramsOne 100).highlightSize =
        paramsZero.highlightSize +
          (paramsOne.highlightSize - paramsZero.highlightSize) *
            min (max (0.015 * 100) 0) 1 := by
  constructor
  · norm_num [advance, paramsZero, paramsOne, lerp, lerpColor, tickStep]
  · norm_num [advance, paramsZero, paramsOne, lerp, lerpColor, tickStep, min_def, max_def]

/-- C2 amended: the interpolation step used by one tick of `advance` is
exactly `0.015 * m`, with no clamping, so it exceeds 1 whenever
`m > 200/3` (e.g. `m = 100` gives step 1.5). -/
theorem advance_step_unclamped :
    (∀ (current target : CurrentParams) (m : ℚ),
      (advance current target m).highlightSize =
        lerp current.highlightSize target.highlightSize (0.015 * m)) ∧
    tickStep 100 = 1.5 ∧ 1 < tickStep 100 := by
  refine ⟨fun current target m => rfl, by norm_num [tickStep], by norm_num [tickStep]⟩

/-- C3 counterexample: the claim's highlightDrift ordering
`asleep < idle < listening` fails: listening has drift 0, which is smaller
than idle's 0.25 (and smaller than asleep's 0.08). -/
theorem preset_drift_ordering_cex :
    (PRESET_ANIMATIONS .listening).highlightDrift = 0 ∧
    (PRESET_ANIMATIONS .idle).highlightDrift = 0.25 ∧
    ¬ (PRESET_ANIMATIONS .idle).highlightDrift <
        (PRESET_ANIMATIONS .listening).highlightDrift := by
  refine ⟨by norm_num [PRESET_ANIMATIONS], by norm_num [PRESET_ANIMATIONS],
    by norm_num [PRESET_ANIMATIONS]⟩

/-- C3 amended: pulseSpeed satisfies
`asleep < idle < listening = thinking < speaking` as claimed, while
highlightDrift satisfies `listening = 0 < asleep < idle < thinking <
speaking`; listening is the unique preset with zero drift. -/
theorem preset_ordering_amended :
    ((PRESET_ANIMATIONS .asleep).pulseSpeed < (PRESET_ANIMATIONS .idle).pulseSpeed ∧
     (PRESET_ANIMATIONS .idle).pulseSpeed < (PRESET_ANIMATIONS .listening).pulseSpeed ∧
     (PRESET_ANIMATIONS .listening).pulseSpeed = (PRESET_ANIMATIONS .thinking).pulseSpeed ∧
     (PRESET_ANIMATIONS .thinking).pulseSpeed < (PRESET_ANIMATIONS .speaking).pulseSpeed) ∧
    ((PRESET_ANIMATIONS .listening).highlightDrift = 0 ∧
     (PRESET_ANIMATIONS .listening).highlightDrift < (PRESET_ANIMATIONS .asleep).highlightDrift ∧
     (PRESET_ANIMATIONS .asleep).highlightDrift < (PRESET_ANIMATIONS .idle).highlightDrift ∧
     (PRESET_ANIMATIONS .idle).highlightDrift < (PRESET_ANIMATIONS .thinking).highlightDrift ∧
     (PRESET_ANIMATIONS .thinking).highlightDrift < (PRESET_ANIMATIONS .speaking).highlightDrift) ∧
    (∀ p : Preset, (PRESET_ANIMATIONS p).highlightDrift = 0 → p = .listening) := by
  refine ⟨by norm_num [PRESET_ANIMATIONS], by norm_num [PRESET_ANIMATIONS], fun p h => ?_⟩
  cases p <;> first
    | rfl
    | norm_num [PRESET_ANIMATIONS] at h

/-- C4: one tick of `advance` applies `current + (target - current) * t` with
`t = tickStep m` to the three colors (per RGB channel) and to highlightSize,
highlightPulse, cloudIntensity and pulseAmount, and snaps pulseSpeed,
cloudSpeed and highlightDrift to the target value exactly. -/
theorem advance_field_policy (current target : CurrentParams) (m : ℚ) :
    ((advance current target m).baseColor.1 =
        current.baseColor.1 + (target.baseColor.1 - current.baseColor.1) * tickStep m ∧
     (advance current target m).baseColor.2.1 =
        current.baseColor.2.1 + (target.baseColor.2.1 - current.baseColor.2.1) * tickStep m ∧
     (advance current target m).baseColor.2.2 =
        current.baseColor.2.2 + (target.baseColor.2.2 - current.baseColor.2.2) * tickStep m ∧
     (advance current target m).midColor.1 =
        current.midColor.1 + (target.midColor.1 - current.midColor.1) * tickStep m ∧
     (advance current target m).midColor.2.1 =
        current.midColor.2.1 + (target.midColor.2.1 - current.midColor.2.1) * tickStep m ∧
     (advance current target m).midColor.2.2 =
        current.midColor.2.2 + (target.midColor.2.2 - current.midColor.2.2) * tickStep m ∧
     (advance current target m).highlight.1 =
        current.highlight.1 + (target.highlight.1 - current.highlight.1) * tickStep m ∧
     (advance current target m).highlight.2.1 =
        current.highlight.2.1 + (target.highlight.2.1 - current.highlight.2.1) * tickStep m ∧
     (advance current target m).highlight.2.2 =
        current.highlight.2.2 + (target.highlight.2.2 - current.highlight.2.2) * tickStep m) ∧
    ((advance current target m).highlightSize =
        current.highlightSize + (target.highlightSize - current.highlightSize) * tickStep m ∧
     (advance current target m).highlightPulse =
        current.highlightPulse + (target.highlightPulse - current.highlightPulse) * tickStep m ∧
     (advance current target m).cloudIntensity =
        current.cloudIntensity + (target.cloudIntensity - current.cloudIntensity) * tickStep m ∧
     (advance current target m).pulseAmount =
        current.pulseAmount + (target.pulseAmount - current.pulseAmount) * tickStep m) ∧
    ((advance current target m).pulseSpeed = target.pulseSpeed ∧
     (advance current target m).cloudSpeed = target.cloudSpeed ∧
     (advance current target m).highlightDrift = target.highlightDrift) :=
  ⟨⟨rfl, rfl, rfl, rfl, rfl, rfl, rfl, rfl, rfl⟩, ⟨rfl, rfl, rfl, rfl⟩, ⟨rfl, rfl, rfl⟩⟩

/-- C5: resolving preset `listening` with no color, presetColors, colorScheme
or animation overrides yields the built-in red scheme and zero highlight
drift. -/
theorem listening_default_resolution :
    (targetState .listening noAnimationOverrides none (fun _ => none) none).baseColor =
      (0.6, 0.08, 0.15) ∧
    (targetState .listening noAnimationOverrides none (fun _ => none) none).midColor =
      (0.85, 0.15, 0.25) ∧
    (targetState .listening noAnimationOverrides none (fun _ => none) none).highlight =
      (1.0, 0.5, 0.6) ∧
    (targetState .listening noAnimationOverrides none (fun _ => none) none).highlightDrift =
      0.0 := by
  refine ⟨?_, ?_, ?_, ?_⟩ <;>
    simp [targetState, mergeAnimation, noAnimationOverrides, resolveColors, truthyString,
      LISTENING_COLOR, PRESET_COLORS_red, PRESET_ANIMATIONS]

/-- C6: with no explicit ColorScheme override, resolving preset `asleep`
yields colors that are channel-wise exactly 0.5 times the un-dimmed
resolution of the same configuration; with an explicit ColorScheme override,
no dimming occurs. -/
theorem asleep_dimming (animation : AnimationOverrides) (color : Option String)
    (presetColors : Preset → Option String) :
    ((targetState .asleep animation color presetColors none).baseColor =
        scaleRGB (resolveColors .asleep color presetColors none).base 0.5 ∧
     (targetState .asleep animation color presetColors none).midColor =
        scaleRGB (resolveColors .asleep color presetColors none).mid 0.5 ∧
     (targetState .asleep animation color presetColors none).highlight =
        scaleRGB (resolveColors .asleep color presetColors none).highlight 0.5) ∧
    (∀ cs : ColorSchemeOverride,
      (targetState .asleep animation color presetColors (some cs)).baseColor =
        (resolveColors .asleep color presetColors (some cs)).base ∧
      (targetState .asleep animation color presetColors (some cs)).midColor =
        (resolveColors .asleep color presetColors (some cs)).mid ∧
      (targetState .asleep animation color presetColors (some cs)).highlight =
        (resolveColors .asleep color presetColors (some cs)).highlight) :=
  ⟨⟨rfl, rfl, rfl⟩, fun _ => ⟨rfl, rfl, rfl⟩⟩

/-- C7: `generateColorScheme` returns the monochrome scheme when the
saturation proxy `(max-min)/max` (0 when max is 0) is below 0.1, and the
darkened/brightened/lightened chromatic scheme otherwise. -/
theorem generateColorScheme_spec (r g b : ℚ) :
    ((if max r (max g b) = 0 then (0 : ℚ)
      else (max r (max g b) - min r (min g b)) / max r (max g b)) < 0.1 →
      generateColorScheme (r, g, b) =
        { base := ((0.299 * r + 0.587 * g + 0.114 * b) * 0.4,
                   (0.299 * r + 0.587 * g + 0.114 * b) * 0.4,
                   (0.299 * r + 0.587 * g + 0.114 * b) * 0.4)
          mid := ((0.299 * r + 0.587 * g + 0.114 * b) * 0.8,
                  (0.299 * r + 0.587 * g + 0.114 * b) * 0.8,
                  (0.299 * r + 0.587 * g + 0.114 * b) * 0.8)
          highlight := (0.95, 0.95, 0.95) }) ∧
    (¬ (if max r (max g b) = 0 then (0 : ℚ)
        else (max r (max g b) - min r (min g b)) / max r (max g b)) < 0.1 →
      generateColorScheme (r, g, b) =
        { base := (r * 0.5, g * 0.5, b * 0.5)
          mid := (min 1 (r * 1.2), min 1 (g * 1.2), min 1 (b * 1.2))
          highlight :=
            (min 1 (r * 0.5 + 0.5), min 1 (g * 0.5 + 0.5), min 1 (b * 0.5 + 0.5)) }) := by
  constructor
  · intro h
    simp only [generateColorScheme]
    rw [if_pos h]
  · intro h
    simp only [generateColorScheme]
    rw [if_neg h]

/-- C7 witness: the gray input (0.5,0.5,0.5) takes the monochrome branch and
the saturated input (0.8,0.1,0.1) takes the chromatic branch. -/
theorem generateColorScheme_spec_witness :
    generateColorScheme (0.5, 0.5, 0.5) =
      { base := (0.2, 0.2, 0.2), mid := (0.4, 0.4, 0.4), highlight := (0.95, 0.95, 0.95) } ∧
    generateColorScheme (0.8, 0.1, 0.1) =
      { base := (0.4, 0.05, 0.05), mid := (0.96, 0.12, 0.12),
        highlight := (0.9, 0.55, 0.55) } := by
  constructor
  · rw [(generateColorScheme_spec 0.5 0.5 0.5).1 (by norm_num)]
    norm_num
  · rw [(generateColorScheme_spec 0.8 0.1 0.1).2 (by norm_num [min_def])]
    norm_num [min_def]

/-- C8: `hexToRgb` returns the fixed fallback (0.15, 0.35, 0.75) on every
string the hex-color regex rejects (e.g. "notacolor", "#fff"), and the
parsed bytes divided by 255 on every string it accepts (case-insensitive,
optional leading '#'), e.g. "#2563eb" ↦ (37/255, 99/255, 235/255). -/
theorem hexToRgb_spec :
    (∀ s : String, hexMatch s = none → hexToRgb s = (0.15, 0.35, 0.75)) ∧
    (∀ (s : String) (r g b : ℕ), hexMatch s = some (r, g, b) →
        hexToRgb s = ((r : ℚ) / 255, (g : ℚ) / 255, (b : ℚ) / 255)) ∧
    hexToRgb "notacolor" = (0.15, 0.35, 0.75) ∧
    hexToRgb "#fff" = (0.15, 0.35, 0.75) ∧
    hexToRgb "#2563eb" = (37 / 255, 99 / 255, 235 / 255) ∧
    hexToRgb "#2563EB" = (37 / 255, 99 / 255, 235 / 255) := by
  have hmalformed : hexMatch "notacolor" = none := by decide
  have hshort : hexMatch "#fff" = none := by decide
  have hlower : hexMatch "#2563eb" = some (37, 99, 235) := by decide
  have hupper : hexMatch "#2563EB" = some (37, 99, 235) := by decide
  refine ⟨?_, ?_, ?_, ?_, ?_, ?_⟩
  · intro s h
    simp [hexToRgb, h]
  · intro s r g b h
    simp [hexToRgb, h]
  · simp [hexToRgb, hmalformed]
  · simp [hexToRgb, hshort]
  · simp [hexToRgb, hlower]
  · simp [hexToRgb, hupper]

/-- C8 witness: the regex accepts "2563eb" without the leading '#' and
`hexToRgb` returns the parsed bytes over 255. -/
theorem hexToRgb_spec_witness :
    hexToRgb "2563eb" = ((37 : ℚ) / 255, (99 : ℚ) / 255, (235 : ℚ) / 255) :=
  hexToRgb_spec.2.1 "2563eb" 37 99 235 (by decide)


-- ===========================================================================
-- Helper lemmas about the GLSL primitives
-- ===========================================================================

-- Projection lemmas pushing `.x`/`.y`/`.z` through the vector operations.

@[simp] theorem V2_sub_x (a b : V2) : (a - b).x = a.x - b.x := rfl

@[simp] theorem V2_sub_y (a b : V2) : (a - b).y = a.y - b.y := rfl

@[simp] theorem V2_vabs_x (a : V2) : (V2.vabs a).x = |a.x| := rfl

@[simp] theorem V2_vabs_y (a : V2) : (V2.vabs a).y = |a.y| := rfl

@[simp] theorem V3_add_x (a b : V3) : (a + b).x = a.x + b.x := rfl

@[simp] theorem V3_add_y (a b : V3) : (a + b).y = a.y + b.y := rfl

@[simp] theorem V3_add_z (a b : V3) : (a + b).z = a.z + b.z := rfl

@[simp] theorem V3_scale_x (a : V3) (s : ℝ) : (a.scale s).x = a.x * s := rfl

@[simp] theorem V3_scale_y (a : V3) (s : ℝ) : (a.scale s).y = a.y * s := rfl

@[simp] theorem V3_scale_z (a : V3) (s : ℝ) : (a.scale s).z = a.z * s := rfl

@[simp] theorem mix3_x (a b : V3) (t : ℝ) : (mix3 a b t).x = glMix a.x b.x t := rfl

@[simp] theorem mix3_y (a b : V3) (t : ℝ) : (mix3 a b t).y = glMix a.y b.y t := rfl

@[simp] theorem mix3_z (a b : V3) (t : ℝ) : (mix3 a b t).z = glMix a.z b.z t := rfl

theorem glStep_nonneg (e x : ℝ) : 0 ≤ glStep e x := by
  unfold glStep
  split <;> norm_num

theorem glStep_eq_one {e x : ℝ} (h : e ≤ x) : glStep e x = 1 := by
  unfold glStep
  rw [if_neg (not_lt.mpr h)]

theorem glStep_eq_zero {e x : ℝ} (h : x < e) : glStep e x = 0 := by
  unfold glStep
  rw [if_pos h]

theorem smoothstep_nonneg (e0 e1 x : ℝ) : 0 ≤ smoothstep e0 e1 x := by
  simp only [smoothstep, glClamp]
  set t := min (max ((x - e0) / (e1 - e0)) 0) 1 with ht
  have h0 : 0 ≤ t := le_min (le_max_right _ 0) zero_le_one
  have h1 : t ≤ 1 := min_le_right _ _
  nlinarith

theorem smoothstep_le_one (e0 e1 x : ℝ) : smoothstep e0 e1 x ≤ 1 := by
  simp only [smoothstep, glClamp]
  set t := min (max ((x - e0) / (e1 - e0)) 0) 1 with ht
  have h0 : 0 ≤ t := le_min (le_max_right _ 0) zero_le_one
  have h1 : t ≤ 1 := min_le_right _ _
  nlinarith [sq_nonneg (1 - t)]

theorem smoothstep_eq_zero {e0 e1 x : ℝ} (h : x ≤ e0) (he : e0 < e1) :
    smoothstep e0 e1 x = 0 := by
  simp only [smoothstep, glClamp]
  have harg : (x - e0) / (e1 - e0) ≤ 0 :=
    div_nonpos_of_nonpos_of_nonneg (by linarith) (by linarith)
  rw [max_eq_right harg, min_eq_left (by norm_num : (0 : ℝ) ≤ 1)]
  ring

theorem smoothstep_eq_one {e0 e1 x : ℝ} (h : e1 ≤ x) (he : e0 < e1) :
    smoothstep e0 e1 x = 1 := by
  simp only [smoothstep, glClamp]
  have harg : 1 ≤ (x - e0) / (e1 - e0) := (one_le_div (by linarith)).mpr (by linarith)
  rw [max_eq_left (by linarith : (0 : ℝ) ≤ (x - e0) / (e1 - e0)), min_eq_right harg]
  ring

theorem toneChannel_mono {a b : ℝ} (ha : -0.45 < a) (hab : a ≤ b) :
    toneChannel a ≤ toneChannel b := by
  unfold toneChannel
  have ha' : 0 < a + 0.45 := by linarith
  have hb' : 0 < b + 0.45 := by linarith
  rw [div_mul_eq_mul_div, div_mul_eq_mul_div, div_le_div_iff₀ ha' hb']
  nlinarith

theorem toneChannel_strict_mono {a b : ℝ} (ha : -0.45 < a) (hab : a < b) :
    toneChannel a < toneChannel b := by
  unfold toneChannel
  have ha' : 0 < a + 0.45 := by linarith
  have hb' : 0 < b + 0.45 := by linarith
  rw [div_mul_eq_mul_div, div_mul_eq_mul_div, div_lt_div_iff₀ ha' hb']
  nlinarith

theorem refSumA_nonneg (uv : V2) : 0 ≤ refSumA uv := by
  simp only [refSumA]
  repeat' first
    | exact glStep_nonneg _ _
    | apply add_nonneg
    | apply mul_nonneg
    | norm_num

theorem refSumA_dash7_lower : 0.5 ≤ refSumA ⟨0.0, -0.35⟩ := by
  norm_num [refSumA, glStep, abs_of_nonneg]

theorem sphereOf_eq_zero {uv : V2} (h : 0.72 ≤ V2.length uv) : sphereOf uv = 0 := by
  unfold sphereOf
  rw [smoothstep_eq_one (by norm_num [sphereRadius]; linarith)
    (by norm_num [sphereRadius, edgeSoftness])]
  ring

theorem sphereOf_eq_one {uv : V2} (h : V2.length uv ≤ 0.712) : sphereOf uv = 1 := by
  unfold sphereOf
  rw [smoothstep_eq_zero (by norm_num [sphereRadius, edgeSoftness]; linarith)
    (by norm_num [sphereRadius, edgeSoftness])]
  ring

-- Generic arithmetic bounds used to assemble the counterexample estimate.

theorem mulChain_bound {c p q r : ℝ} (hc : 0.35 ≤ c) (hp : 101 ≤ p) (hq : 0.6 ≤ q)
    (hr : 0.7 ≤ r) : 2 ≤ c * p * q * r := by
  have h1 : (35 : ℝ) ≤ c * p := by nlinarith
  have h2 : (21 : ℝ) ≤ c * p * q := by nlinarith
  nlinarith

theorem addChain_bound {t1 t2 t3 t4 t5 t6 t7 : ℝ} (h1 : 0.35 ≤ t1) (h2 : 0 ≤ t2)
    (h3 : 0 ≤ t3) (h4 : 0 ≤ t4) (h5 : 0 ≤ t5) (h6 : 0 ≤ t6) (h7 : 0 ≤ t7) :
    0.35 ≤ t1 + t2 + t3 + t4 + t5 + t6 + t7 := by linarith

theorem unitMulBound {C d : ℝ} (hC : C = 1) (hd : 0 ≤ d) :
    0.35 ≤ C * (0.35 + d * 0.65) := by nlinarith

/-- In the bright state at uv = (0, -0.35) and time pi/2, the red channel of
the pre-reflection color is at least 2: the pulse factor is
1 + sin(pi/2)*100 = 101, the diffuse floor contributes 0.35, and the
ambient-occlusion and bottom-shadow multipliers are at least 0.6 and 0.7. -/
theorem preColor_bright_lower :
    2 ≤ (preColor ⟨0.0, -0.35⟩ uniformsBright (Real.pi / 2)).x := by
  have hdist : V2.length ⟨(0.0:ℝ), -0.35⟩ = 0.35 := by
    simp only [V2.length]
    rw [show ((0.0:ℝ) * 0.0 + -0.35 * -0.35) = 0.35 ^ 2 by norm_num,
      Real.sqrt_sq (by norm_num : (0:ℝ) ≤ 0.35)]
  simp only [preColor, uniformsBright, hdist, V3_add_x, V3_scale_x,
    mix3_x, glMix, sphereRadius, mul_one]
  rw [Real.sin_pi_div_two]
  refine mulChain_bound ?_ (by norm_num) ?_ ?_
  · refine addChain_bound ?_ ?_ ?_ ?_ ?_ ?_ ?_
    · refine unitMulBound (by ring) ?_
      apply Real.rpow_nonneg
      exact le_max_of_le_left (by norm_num)
    · apply mul_nonneg (by norm_num)
      apply mul_nonneg
      · apply mul_nonneg ?_ (by norm_num)
        apply Real.rpow_nonneg
        exact le_max_of_le_left (by norm_num)
      · apply add_nonneg (by norm_num)
        apply mul_nonneg ?_ (by norm_num)
        exact smoothstep_nonneg _ _ _
    · apply mul_nonneg
      · norm_num
      · apply mul_nonneg ?_ (by norm_num)
        apply add_nonneg
        · apply add_nonneg
          · apply add_nonneg
            · exact le_of_eq (by ring)
            · exact le_of_eq (by ring)
          · exact le_of_eq (by ring)
        · apply mul_nonneg ?_ (by norm_num)
          apply Real.rpow_nonneg
          exact le_max_of_le_left (by norm_num)
    · exact le_of_eq (by ring)
    · exact le_of_eq (by ring)
    · exact le_of_eq (by ring)
    · apply mul_nonneg (by norm_num)
      apply mul_nonneg ?_ (by norm_num)
      apply Real.rpow_nonneg
      exact le_max_of_le_left (by norm_num)
  · linarith [smoothstep_nonneg 0.72 (0.72 * 0.4) 0.35]
  · linarith [smoothstep_nonneg (-0.7) 0.4 (-0.35)]

/-- In the dark state (all colors zero, pulseAmount -1) at time pi/2, the
pulse factor 1 + sin(pi/2)*(-1) vanishes, so the pre-reflection color is
exactly zero at the center. -/
theorem preColor_dark_eq_zero :
    (preColor ⟨0.0, 0.0⟩ uniformsDark (Real.pi / 2)).x = 0 ∧
    (preColor ⟨0.0, 0.0⟩ uniformsDark (Real.pi / 2)).y = 0 ∧
    (preColor ⟨0.0, 0.0⟩ uniformsDark (Real.pi / 2)).z = 0 := by
  refine ⟨?_, ?_, ?_⟩ <;>
  · simp only [preColor, uniformsDark, V3_add_x, V3_add_y, V3_add_z, V3_scale_x,
      V3_scale_y, V3_scale_z, mix3_x, mix3_y, mix3_z, glMix, sphereRadius, mul_one]
    rw [Real.sin_pi_div_two]
    ring

-- ===========================================================================
-- Claims about the fragment shader
-- ===========================================================================

/-- C1 counterexample: the reflection overlay is `mix(color, white, ref)`,
which strictly darkens a channel whenever the pre-reflection channel exceeds
1. At uv = (0, -0.35) (inside the mask, on the dash7 reflection shape), in
the bright state at time pi/2 and intensity 1 ∈ [0,1], the red channel with
reflections enabled is strictly below the red channel with reflections
disabled, refuting the claimed channel-wise monotonicity. -/
theorem reflection_monotone_cex :
    (shadeA ⟨0.0, -0.35⟩ uniformsBright (Real.pi / 2) 1).x <
    (shadeA ⟨0.0, -0.35⟩ uniformsBright (Real.pi / 2) 0).x := by
  have hdist : V2.length ⟨(0.0:ℝ), -0.35⟩ = 0.35 := by
    simp only [V2.length]
    rw [show ((0.0:ℝ) * 0.0 + -0.35 * -0.35) = 0.35 ^ 2 by norm_num,
      Real.sqrt_sq (by norm_num : (0:ℝ) ≤ 0.35)]
  have hmask : sphereOf ⟨(0.0:ℝ), -0.35⟩ = 1 := sphereOf_eq_one (by rw [hdist]; norm_num)
  have hC : 2 ≤ (preColor ⟨0.0, -0.35⟩ uniformsBright (Real.pi / 2)).x :=
    preColor_bright_lower
  have hrs : 0.5 ≤ refSumA ⟨0.0, -0.35⟩ := refSumA_dash7_lower
  simp only [shadeA, hmask]
  rw [if_neg (by norm_num : ¬ (1:ℝ) < 0.001), if_neg (by norm_num : ¬ (1:ℝ) < 0.001),
    if_pos (by norm_num : (0.0:ℝ) < 1), if_neg (by norm_num : ¬ (0.0:ℝ) < 0)]
  simp only [toneMap, mix3_x, glMix]
  set C := (preColor ⟨0.0, -0.35⟩ uniformsBright (Real.pi / 2)).x with hCdef
  set R := min (refSumA ⟨0.0, -0.35⟩) 1.0 * 1 with hRdef
  have hR0 : 0.5 ≤ R := by rw [hRdef, mul_one]; exact le_min hrs (by norm_num)
  have hR1 : R ≤ 1 := by
    rw [hRdef, mul_one]
    exact le_trans (min_le_right _ _) (by norm_num)
  apply toneChannel_strict_mono
  · nlinarith
  · nlinarith

/-- C1 amended: for every uv inside the sphere mask, state, time, and
reflection intensity r in [0,1], each RGB channel of `shadeA` with the
reflection overlay enabled is at least the corresponding channel with
reflections disabled, PROVIDED each channel of the pre-reflection composed
color lies in [0,1]; the counterexample shows the proviso is necessary when
a pre-reflection channel exceeds 1. -/
theorem reflection_monotone_amended (uv : V2) (u : Uniforms) (time r : ℝ)
    (hr0 : 0 ≤ r) (hr1 : r ≤ 1) (hmask : ¬ sphereOf uv < 0.001)
    (hx0 : 0 ≤ (preColor uv u time).x) (hx1 : (preColor uv u time).x ≤ 1)
    (hy0 : 0 ≤ (preColor uv u time).y) (hy1 : (preColor uv u time).y ≤ 1)
    (hz0 : 0 ≤ (preColor uv u time).z) (hz1 : (preColor uv u time).z ≤ 1) :
    (shadeA uv u time 0).x ≤ (shadeA uv u time r).x ∧
    (shadeA uv u time 0).y ≤ (shadeA uv u time r).y ∧
    (shadeA uv u time 0).z ≤ (shadeA uv u time r).z := by
  rcases eq_or_lt_of_le hr0 with h0 | h0
  · rw [← h0]
    exact ⟨le_refl _, le_refl _, le_refl _⟩
  · have hrefnn := refSumA_nonneg uv
    have hmin0 : 0 ≤ min (refSumA uv) 1.0 := le_min hrefnn (by norm_num)
    have hmin1 : min (refSumA uv) 1.0 ≤ 1 := le_trans (min_le_right _ _) (by norm_num)
    have hRnn : 0 ≤ min (refSumA uv) 1.0 * r := mul_nonneg hmin0 hr0
    have hR1 : min (refSumA uv) 1.0 * r ≤ 1 := by nlinarith
    simp only [shadeA]
    rw [if_neg hmask, if_neg hmask, if_neg (by norm_num : ¬ (0.0:ℝ) < 0),
      if_pos (by linarith : (0.0:ℝ) < r)]
    simp only [toneMap, mix3_x, mix3_y, mix3_z, glMix]
    refine ⟨?_, ?_, ?_⟩
    · apply toneChannel_mono (by linarith)
      nlinarith
    · apply toneChannel_mono (by linarith)
      nlinarith
    · apply toneChannel_mono (by linarith)
      nlinarith

/-- C1 amended witness: at the center in the dark state (pre-reflection
color exactly 0, inside [0,1] per channel) with intensity 0.6, the overlay
does not decrease any channel. -/
theorem reflection_monotone_amended_witness :
    (0:ℝ) ≤ 0.6 ∧ (0.6:ℝ) ≤ 1 ∧ ¬ sphereOf ⟨0.0, 0.0⟩ < 0.001 ∧
    0 ≤ (preColor ⟨0.0, 0.0⟩ uniformsDark (Real.pi / 2)).x ∧
    (preColor ⟨0.0, 0.0⟩ uniformsDark (Real.pi / 2)).x ≤ 1 ∧
    0 ≤ (preColor ⟨0.0, 0.0⟩ uniformsDark (Real.pi / 2)).y ∧
    (preColor ⟨0.0, 0.0⟩ uniformsDark (Real.pi / 2)).y ≤ 1 ∧
    0 ≤ (preColor ⟨0.0, 0.0⟩ uniformsDark (Real.pi / 2)).z ∧
    (preColor ⟨0.0, 0.0⟩ uniformsDark (Real.pi / 2)).z ≤ 1 ∧
    ((shadeA ⟨0.0, 0.0⟩ uniformsDark (Real.pi / 2) 0).x ≤
        (shadeA ⟨0.0, 0.0⟩ uniformsDark (Real.pi / 2) 0.6).x ∧
     (shadeA ⟨0.0, 0.0⟩ uniformsDark (Real.pi / 2) 0).y ≤
        (shadeA ⟨0.0, 0.0⟩ uniformsDark (Real.pi / 2) 0.6).y ∧
     (shadeA ⟨0.0, 0.0⟩ uniformsDark (Real.pi / 2) 0).z ≤
        (shadeA ⟨0.0, 0.0⟩ uniformsDark (Real.pi / 2) 0.6).z) := by
  have hlen : V2.length ⟨(0.0:ℝ), 0.0⟩ = 0 := by
    simp only [V2.length]
    rw [show ((0.0:ℝ) * 0.0 + 0.0 * 0.0) = 0 by norm_num, Real.sqrt_zero]
  have hmask : ¬ sphereOf ⟨(0.0:ℝ), 0.0⟩ < 0.001 := by
    rw [sphereOf_eq_one (by rw [hlen]; norm_num)]
    norm_num
  obtain ⟨hx, hy, hz⟩ := preColor_dark_eq_zero
  exact ⟨by norm_num, by norm_num, hmask,
    by simp [hx], by simp [hx], by simp [hy], by simp [hy], by simp [hz], by simp [hz],
    reflection_monotone_amended ⟨0.0, 0.0⟩ uniformsDark (Real.pi / 2) 0.6
      (by norm_num) (by norm_num) hmask
      (by simp [hx]) (by simp [hx]) (by simp [hy]) (by simp [hy])
      (by simp [hz]) (by simp [hz])⟩

/-- C9: the alpha channel of `shadeA` is exactly 0 at every uv with
|uv| ≥ 0.73, exactly 1 at every uv with |uv| ≤ 0.71, and depends only on
|uv| (sphereRadius 0.72, antialiasing band width 0.008), for every state,
time and reflection setting. -/
theorem shadeA_alpha_mask (uv : V2) (u : Uniforms) (time reflections : ℝ) :
    (0.73 ≤ V2.length uv → (shadeA uv u time reflections).w = 0) ∧
    (V2.length uv ≤ 0.71 → (shadeA uv u time reflections).w = 1) ∧
    (∀ uv2 : V2, V2.length uv2 = V2.length uv →
      (shadeA uv2 u time reflections).w = (shadeA uv u time reflections).w) := by
  refine ⟨?_, ?_, ?_⟩
  · intro h
    have hs : sphereOf uv = 0 := sphereOf_eq_zero (by linarith)
    simp only [shadeA, hs]
    rw [if_pos (by norm_num : (0 : ℝ) < 0.001)]
    norm_num
  · intro h
    have hs : sphereOf uv = 1 := sphereOf_eq_one (by linarith)
    simp only [shadeA, hs]
    rw [if_neg (by norm_num : ¬ (1 : ℝ) < 0.001)]
  · intro uv2 h2
    have hs : sphereOf uv2 = sphereOf uv := by unfold sphereOf; rw [h2]
    simp only [shadeA, hs]
    by_cases hc : sphereOf uv < 0.001
    · rw [if_pos hc, if_pos hc]
    · rw [if_neg hc, if_neg hc]

/-- C9 witness: at uv = (0.8, 0) (radius 0.8) the alpha is 0, and at the
center the alpha is 1, in the blue idle state. -/
theorem shadeA_alpha_mask_witness :
    0.73 ≤ V2.length ⟨0.8, 0.0⟩ ∧ (shadeA ⟨0.8, 0.0⟩ uniformsBlue 0 0).w = 0 ∧
    V2.length ⟨0.0, 0.0⟩ ≤ 0.71 ∧ (shadeA ⟨0.0, 0.0⟩ uniformsBlue 0 0).w = 1 := by
  have h1 : V2.length ⟨(0.8 : ℝ), 0.0⟩ = 0.8 := by
    simp only [V2.length]
    rw [show ((0.8 : ℝ) * 0.8 + 0.0 * 0.0) = 0.8 ^ 2 by norm_num,
      Real.sqrt_sq (by norm_num : (0 : ℝ) ≤ 0.8)]
  have h2 : V2.length ⟨(0.0 : ℝ), 0.0⟩ = 0 := by
    simp only [V2.length]
    rw [show ((0.0 : ℝ) * 0.0 + 0.0 * 0.0) = 0 by norm_num, Real.sqrt_zero]
  refine ⟨by rw [h1]; norm_num,
    (shadeA_alpha_mask ⟨0.8, 0.0⟩ uniformsBlue 0 0).1 (by rw [h1]; norm_num),
    by rw [h2]; norm_num,
    (shadeA_alpha_mask ⟨0.0, 0.0⟩ uniformsBlue 0 0).2.1 (by rw [h2]; norm_num)⟩

/-- C10: with reflections disabled (u_reflections = 0) the part_000 shader
and the src/HAL.tsx shader compute identical RGBA output for every uv,
state, time and resolution: they differ only inside the reflection branch,
which is skipped when u_reflections is not positive. -/
theorem shadeB_reflections_off_eq_shadeA (uv : V2) (u : Uniforms) (time : ℝ)
    (resolution : V2) :
    shadeB uv u time resolution 0 = shadeA uv u time 0 := by
  have h : ¬ (0.0 : ℝ) < 0 := by norm_num
  simp only [shadeB, shadeA, preColorB_eq_preColor, if_neg h]

end HAL
